import Mathlib

/-!
Verification of the message-processing pipeline of the ayurakshak_web
chatbot (src/app.py) via a shallow embedding in Lean 4.

External collaborators (the langdetect library, the Google translation
client, the MongoDB store, the web framework) are modelled as oracle
parameters: a detection oracle `String → Option String` (`none` models a
raised exception inside `detect`), a translation oracle
`String → String → Option String` (`none` models a raised exception inside
`translator.translate`), and Boolean flags saying whether each
`insert_one` call on the store succeeds (a failing insert raises, which the
source does not catch, so it is modelled as an `Except.error` result).

Python string lowering is modelled as ASCII lowering (the keyword sets of
the analyzer are ASCII or Devanagari, and Devanagari is unchanged by
lowering in both Python and this model). Timestamps are real-time values
and are not modelled.
-/

/-- Model of the Python substring test `needle in hay`:
some tail of `hay` starts with `needle`. -/
def strContains (hay needle : String) : Bool :=
  hay.data.tails.any (fun t => needle.data.isPrefixOf t)

/-- Model of Python `str.lower` (ASCII range; see the header note). -/
def strLower (s : String) : String :=
  ⟨s.data.map Char.toLower⟩

/-- Model of Python `sep.join(ls)`. -/
def joinWith (sep : String) : List String → String
  | [] => ""
  | [a] => a
  | a :: b :: t => a ++ sep ++ joinWith sep (b :: t)

/-- Model of Python `p.startswith`-like test used to state reply prefixes:
`needle` is a prefix of `hay`. -/
def strStartsWith (hay needle : String) : Bool :=
  needle.data.isPrefixOf hay.data

/-- Suffix test used to state the disclaimer invariant. -/
def strEndsWith (hay needle : String) : Bool :=
  needle.data.isSuffixOf hay.data

/-- DISCLAIMER constant of src/app.py line 29. -/
def DISCLAIMER : String := "⚠ Please consult a doctor before following this advice."

/-- HELPLINES["default"] constant of src/app.py line 26. -/
def HELPLINE : String := "104 (Govt. Health Helpline - India)"

/-- AnalysisResult: the dict returned by analyze_symptoms. -/
structure Analysis where
  symptoms : List String
  severity : String
  notes : String
  deriving Repr, DecidableEq

/-- Shallow embedding of detect_language (src/app.py lines 32-37): the
oracle result on success, the fallback "en" when the library raises. -/
def detect_language (dO : String → Option String) (text : String) : String :=
  match dO text with
  | some code => code
  | none => "en"

/-- Shallow embedding of translate_text (src/app.py lines 39-45): the
service result on success, the input text unchanged when the call raises. -/
def translate_text (tO : String → String → Option String)
    (text target_lang : String) : String :=
  match tO text target_lang with
  | some result => result
  | none => text

/-- Shallow embedding of analyze_symptoms (src/app.py lines 47-60).
Note that the moderate check on line 58 is a plain `if`, not `elif`:
it runs after the severe check and overwrites its result. -/
def analyze_symptoms (text : String) : Analysis :=
  let txt := strLower text
  let symptoms : List String :=
    (if strContains txt "fever" || strContains txt "बुखार" then ["fever"] else []) ++
    (if strContains txt "pain" || strContains txt "दर्द" || strContains txt "ache" then
      ["pain"] else [])
  let sevAfterSevere : String :=
    if strContains txt "bleeding" || strContains txt "unconscious" ||
       strContains txt "severe" || strContains txt "chest pain" ||
       strContains txt "difficulty breathing" then "severe" else "mild"
  let severity : String :=
    if strContains txt "high" || strContains txt "104" then "moderate" else sevAfterSevere
  { symptoms := symptoms, severity := severity, notes := "" }

/-- Reply lines of the pain branch (src/app.py lines 94-96). -/
def painLines : List String :=
  ["I detected pain. Please call " ++ HELPLINE ++ ".",
   "If the pain is intense or sudden, visit the nearest hospital 👉 https://www.google.com/maps/search/hospital+near+me"]

/-- Reply lines of the fever branch (src/app.py lines 97-98). -/
def feverLines : List String :=
  ["For fever: Drink fluids, rest, monitor temperature."]

/-- Reply lines of the garlic branch (src/app.py lines 99-101). -/
def garlicLines : List String :=
  ["⚠ Garlic does NOT cure TB. Refer to official guidance (WHO) for treatment.",
   "https://www.who.int"]

/-- Reply lines of the sos branch (src/app.py lines 102-103). -/
def sosLines : List String :=
  ["🚨 Emergency detected! Call " ++ HELPLINE ++ " or nearest hospital immediately."]

/-- Reply lines of the detected-symptoms branch (src/app.py lines 105-110). -/
def symptomLines (analysis : Analysis) : List String :=
  ("I detected symptoms: " ++ joinWith ", " analysis.symptoms ++ ".") ::
  (if analysis.severity == "severe" then
    ["Severity appears high — seek emergency care now: https://www.google.com/maps/search/hospital+near+me"]
  else
    ["Try home care measures (rest, fluids). Monitor and seek care if symptoms worsen."])

/-- Reply lines of the echo branch (src/app.py lines 112-113). -/
def echoLines (user_msg_en : String) : List String :=
  ["You said: " ++ user_msg_en,
   "Tell me more about your symptoms or type \x27symptom checker\x27 to begin."]

/-- Shallow embedding of the reply-selection chain of send_message
(src/app.py lines 94-113): a strict if/elif chain on the lowered
English-side text, with two checks also matching the original text. -/
def compose_lines (user_msg user_msg_en : String) (analysis : Analysis) : List String :=
  if strContains (strLower user_msg_en) "pain" || strContains user_msg "दर्द" then
    painLines
  else if strContains (strLower user_msg_en) "fever" || strContains user_msg "बुखार" then
    feverLines
  else if strContains (strLower user_msg_en) "garlic" then
    garlicLines
  else if strContains (strLower user_msg_en) "sos" || strContains user_msg "😭" then
    sosLines
  else if analysis.symptoms ≠ [] then
    symptomLines analysis
  else
    echoLines user_msg_en

/-- Embedding of src/app.py line 116: join the branch lines plus the
disclaimer with newline, the analysis being computed on the English-side
text (line 91). -/
def reply_text_of (user_msg user_msg_en : String) : String :=
  joinWith "\n" (compose_lines user_msg user_msg_en (analyze_symptoms user_msg_en) ++ [DISCLAIMER])

/-- Parsed JSON body of a POST to /send_message; each field may be absent. -/
structure ChatBody where
  message : Option String
  lang_code : Option String

/-- A record appended to mongo.db.messages (sender, lang_code, message);
the timestamp field is a real-time value and is not modelled. -/
structure StoredMsg where
  sender : String
  lang_code : String
  message : String
  deriving Repr, DecidableEq

/-- A raised pymongo error from an insert_one call: the source wraps no
insert in try/except, so it propagates out of the handler. -/
inductive StorageError where
  | storageFailure
  deriving Repr, DecidableEq

/-- Observable outcome of one /send_message request: the JSON reply, the
records appended to the store, and every (text, target) pair passed to the
translation collaborator. -/
structure ChatResult where
  reply : String
  stored : List StoredMsg
  translateCalls : List (String × String)
  deriving Repr, DecidableEq

/-- src/app.py line 74-75: `(request.json or \x7b\x7d).get("message", "")`. -/
def userMsgOf (body : Option ChatBody) : String :=
  match body with
  | none => ""
  | some b => b.message.getD ""

/-- src/app.py line 76: `(request.json or \x7b\x7d).get("lang_code", "en")`. -/
def langCodeOf (body : Option ChatBody) : String :=
  match body with
  | none => "en"
  | some b => b.lang_code.getD "en"

/-- src/app.py line 88: translate the inbound message to English only when
the detected language differs from "en". -/
def user_msg_en_of (dO : String → Option String) (tO : String → String → Option String)
    (user_msg : String) : String :=
  if detect_language dO user_msg ≠ "en" then translate_text tO user_msg "en" else user_msg

/-- The observable outcome of the success path of /send_message
(src/app.py lines 74-129, both inserts succeeding). -/
def chatResultOf (dO : String → Option String) (tO : String → String → Option String)
    (body : Option ChatBody) : ChatResult :=
  let user_msg := userMsgOf body
  let lang_code := langCodeOf body
  let user_msg_en := user_msg_en_of dO tO user_msg
  let reply_text := reply_text_of user_msg user_msg_en
  let final_reply := if lang_code ≠ "en" then translate_text tO reply_text lang_code else reply_text
  { reply := final_reply,
    stored := [{ sender := "user", lang_code := lang_code, message := user_msg },
               { sender := "bot", lang_code := lang_code, message := final_reply }],
    translateCalls :=
      (if detect_language dO user_msg ≠ "en" then [(user_msg, "en")] else []) ++
      (if lang_code ≠ "en" then [(reply_text, lang_code)] else []) }

/-- Shallow embedding of the /send_message handler (src/app.py lines
72-129), parameterized by the detection oracle, the translation oracle and
the success of the two insert_one calls. A failing insert raises, which
nothing in the handler catches, hence the Except result. -/
def send_message (dO : String → Option String) (tO : String → String → Option String)
    (store1Ok store2Ok : Bool) (body : Option ChatBody) : Except StorageError ChatResult :=
  if store1Ok then
    if store2Ok then .ok (chatResultOf dO tO body)
    else .error .storageFailure
  else .error .storageFailure

/-- src/app.py line 148: the simulated OCR text for an uploaded filename. -/
def ocr_text_of (filename : String) : String :=
  "Simulated OCR of " ++ filename ++ ": Paracetamol 500mg twice daily for 5 days."

/-- src/app.py lines 149-153: the dosage explanation before the disclaimer. -/
def uploadBody (filename : String) : String :=
  "I found this in your document: " ++ ocr_text_of filename ++
  "\nDosage: Paracetamol 500 mg - take one tablet twice a day after food. If fever persists > 48 hours, consult your doctor."

/-- src/app.py line 154: the explanation with the disclaimer appended. -/
def upload_explanation (filename : String) : String :=
  uploadBody filename ++ "\n" ++ DISCLAIMER

/-- Observable outcome of one /upload_file request: HTTP status, JSON
reply, appended records and translate calls. -/
structure UploadResult where
  status : Nat
  reply : String
  stored : List StoredMsg
  translateCalls : List (String × String)
  deriving Repr, DecidableEq

/-- src/app.py line 137: the 400 response when no file part is attached. -/
def noFileResult : UploadResult :=
  { status := 400, reply := "No file received.\n" ++ DISCLAIMER,
    stored := [], translateCalls := [] }

/-- The observable outcome of the success path of /upload_file with a file
attached (src/app.py lines 139-165, both inserts succeeding). -/
def uploadOkResultOf (tO : String → String → Option String)
    (filename lang_code : String) : UploadResult :=
  let explanation0 := upload_explanation filename
  let explanation :=
    if lang_code ≠ "en" then translate_text tO explanation0 lang_code else explanation0
  { status := 200, reply := explanation,
    stored := [{ sender := "user", lang_code := lang_code,
                 message := "Uploaded file: " ++ filename },
               { sender := "bot", lang_code := lang_code, message := explanation }],
    translateCalls :=
      if lang_code ≠ "en" then [(explanation0, lang_code)] else [] }

/-- Shallow embedding of the /upload_file handler (src/app.py lines
132-165). The file is modelled by its filename when one is attached. -/
def upload_file (tO : String → String → Option String) (store1Ok store2Ok : Bool)
    (file : Option String) (formLang : Option String) : Except StorageError UploadResult :=
  match file with
  | none => .ok noFileResult
  | some filename =>
    if store1Ok then
      if store2Ok then .ok (uploadOkResultOf tO filename (formLang.getD "en"))
      else .error .storageFailure
    else .error .storageFailure

/-! ## Helper lemmas shared by several claim theorems -/

/-- Joining `ls ++ [d]` equals joining `ls`, then appending a separator
and `d`, whenever `ls` is nonempty. -/
theorem joinWith_append_last (sep d : String) :
    ∀ ls : List String, ls ≠ [] →
      joinWith sep (ls ++ [d]) = joinWith sep ls ++ sep ++ d
  | [], h => absurd rfl h
  | [a], _ => rfl
  | a :: b :: t, _ => by
    have ih := joinWith_append_last sep d (b :: t) (by simp)
    simp only [List.cons_append] at ih ⊢
    rw [joinWith, joinWith, ih]
    simp [String.append_assoc]

/-- Every branch of the composer produces at least one line. -/
theorem compose_lines_ne_nil (u e : String) (a : Analysis) :
    compose_lines u e a ≠ [] := by
  unfold compose_lines
  split_ifs <;>
    simp [painLines, feverLines, garlicLines, sosLines, symptomLines, echoLines]

/-- The composed reply text always decomposes as some prefix followed by a
newline and the disclaimer. -/
theorem reply_text_of_ends_with_disclaimer (u e : String) :
    ∃ s, reply_text_of u e = s ++ "\n" ++ DISCLAIMER := by
  refine ⟨joinWith "\n" (compose_lines u e (analyze_symptoms e)), ?_⟩
  unfold reply_text_of
  exact joinWith_append_last "\n" DISCLAIMER _ (compose_lines_ne_nil u e _)

/-- The severity computed by the analyzer is one of the three levels. -/
theorem analyze_symptoms_severity_mem (text : String) :
    (analyze_symptoms text).severity ∈ (["mild", "moderate", "severe"] : List String) := by
  unfold analyze_symptoms
  dsimp only
  split_ifs <;> simp

/-- The symptoms list of the analyzer has one of four shapes, with the
fever tag always before the pain tag. -/
theorem analyze_symptoms_symptoms_shape (text : String) :
    (analyze_symptoms text).symptoms ∈
      ([[], ["fever"], ["pain"], ["fever", "pain"]] : List (List String)) := by
  unfold analyze_symptoms
  dsimp only
  split_ifs <;> simp

/-! ## Claim C1 -/

/-- C1 counterexample: the input "bleeding high" contains the
severe-trigger word "bleeding", yet analyze_symptoms returns severity
"moderate", because the moderate check on src/app.py line 58 is a plain
`if` that runs after the severe check and overwrites its result. -/
theorem C1_counterexample :
    strContains (strLower "bleeding high") "bleeding" = true ∧
    (analyze_symptoms "bleeding high").severity = "moderate" := by
  constructor
  · decide
  · decide

/-- C1 amended: for every text containing a severe-trigger word such as
"bleeding" and containing neither "high" nor "104" (case-insensitively),
analyze_symptoms returns severity "severe"; the moderate check runs after
the severe check and, when it matches, overwrites the severe result
(last assignment wins, not first match). -/
theorem C1_bleeding_severe_unless_overridden (text : String)
    (hb : strContains (strLower text) "bleeding" = true)
    (hh : strContains (strLower text) "high" = false)
    (h104 : strContains (strLower text) "104" = false) :
    (analyze_symptoms text).severity = "severe" := by
  unfold analyze_symptoms
  simp [hb, hh, h104]

/-- Witness for C1: the input "bleeding" satisfies the hypotheses and gets
severity "severe". -/
theorem C1_witness : (analyze_symptoms "bleeding").severity = "severe" :=
  C1_bleeding_severe_unless_overridden "bleeding" (by decide) (by decide) (by decide)

/-! ## Claim C8 -/

/-- C8: analyze_symptoms is a total function; its severity is one of
mild, moderate, severe; its notes field is the empty string; and its
symptoms list is duplicate-free with the fever tag always before the pain
tag, independent of keyword order in the text. -/
theorem C8_analyze_total_and_shaped (text : String) :
    (analyze_symptoms text).severity ∈ (["mild", "moderate", "severe"] : List String) ∧
    (analyze_symptoms text).notes = "" ∧
    (analyze_symptoms text).symptoms.Nodup ∧
    (analyze_symptoms text).symptoms ∈
      ([[], ["fever"], ["pain"], ["fever", "pain"]] : List (List String)) := by
  refine ⟨analyze_symptoms_severity_mem text, rfl, ?_, analyze_symptoms_symptoms_shape text⟩
  have h := analyze_symptoms_symptoms_shape text
  simp only [List.mem_cons, List.not_mem_nil, or_false] at h
  rcases h with h | h | h | h <;> rw [h] <;> decide

/-! ## Claim C6 -/

/-- C6: detection, translation and analysis never raise: when the
detection collaborator raises, detect_language returns "en"; when the
translation collaborator raises, translate_text returns its input text
unchanged; on success each returns the collaborator result; and
analyze_symptoms is total with severity always one of the three levels. -/
theorem C6_failures_absorbed (dO : String → Option String)
    (tO : String → String → Option String) (text target : String) :
    (dO text = none → detect_language dO text = "en") ∧
    (tO text target = none → translate_text tO text target = text) ∧
    (∀ c, dO text = some c → detect_language dO text = c) ∧
    (∀ r, tO text target = some r → translate_text tO text target = r) ∧
    (analyze_symptoms text).severity ∈ (["mild", "moderate", "severe"] : List String) := by
  refine ⟨?_, ?_, ?_, ?_, analyze_symptoms_severity_mem text⟩
  · intro h; simp [detect_language, h]
  · intro h; simp [translate_text, h]
  · intro c h; simp [detect_language, h]
  · intro r h; simp [translate_text, h]

/-- Witness for C6: concrete failing collaborators are absorbed into the
documented fallbacks. -/
theorem C6_witness :
    detect_language (fun _ => none) "xyz" = "en" ∧
    translate_text (fun _ _ => none) "hola" "en" = "hola" :=
  ⟨(C6_failures_absorbed (fun _ => none) (fun _ _ => none) "xyz" "en").1 rfl,
   (C6_failures_absorbed (fun _ => none) (fun _ _ => none) "hola" "en").2.1 rfl⟩

/-! ## Claim C3 -/

/-- C3: reply selection is a strict first-match-wins priority chain on the
lowered English-side text (two checks also matching the original text):
pain, else fever, else garlic, else sos, else detected symptoms (with the
emergency link exactly when severity is severe), else echo; no branch
falls through to another. -/
theorem C3_reply_priority_chain (u e : String) (a : Analysis) :
    ((strContains (strLower e) "pain" || strContains u "दर्द") = true →
      compose_lines u e a = painLines) ∧
    ((strContains (strLower e) "pain" || strContains u "दर्द") = false →
      (strContains (strLower e) "fever" || strContains u "बुखार") = true →
      compose_lines u e a = feverLines) ∧
    ((strContains (strLower e) "pain" || strContains u "दर्द") = false →
      (strContains (strLower e) "fever" || strContains u "बुखार") = false →
      strContains (strLower e) "garlic" = true →
      compose_lines u e a = garlicLines) ∧
    ((strContains (strLower e) "pain" || strContains u "दर्द") = false →
      (strContains (strLower e) "fever" || strContains u "बुखार") = false →
      strContains (strLower e) "garlic" = false →
      (strContains (strLower e) "sos" || strContains u "😭") = true →
      compose_lines u e a = sosLines) ∧
    ((strContains (strLower e) "pain" || strContains u "दर्द") = false →
      (strContains (strLower e) "fever" || strContains u "बुखार") = false →
      strContains (strLower e) "garlic" = false →
      (strContains (strLower e) "sos" || strContains u "😭") = false →
      a.symptoms ≠ [] →
      compose_lines u e a = symptomLines a) ∧
    ((strContains (strLower e) "pain" || strContains u "दर्द") = false →
      (strContains (strLower e) "fever" || strContains u "बुखार") = false →
      strContains (strLower e) "garlic" = false →
      (strContains (strLower e) "sos" || strContains u "😭") = false →
      a.symptoms = [] →
      compose_lines u e a = echoLines e) ∧
    (a.severity = "severe" → symptomLines a =
      ("I detected symptoms: " ++ joinWith ", " a.symptoms ++ ".") ::
      ["Severity appears high — seek emergency care now: https://www.google.com/maps/search/hospital+near+me"]) ∧
    (a.severity ≠ "severe" → symptomLines a =
      ("I detected symptoms: " ++ joinWith ", " a.symptoms ++ ".") ::
      ["Try home care measures (rest, fluids). Monitor and seek care if symptoms worsen."]) := by
  refine ⟨?_, ?_, ?_, ?_, ?_, ?_, ?_, ?_⟩
  · intro h1; simp [compose_lines, h1]
  · intro h1 h2; simp [compose_lines, h1, h2]
  · intro h1 h2 h3; simp [compose_lines, h1, h2, h3]
  · intro h1 h2 h3 h4; simp [compose_lines, h1, h2, h3, h4]
  · intro h1 h2 h3 h4 h5; simp [compose_lines, h1, h2, h3, h4, h5]
  · intro h1 h2 h3 h4 h5; simp [compose_lines, h1, h2, h3, h4, h5]
  · intro h; simp [symptomLines, h]
  · intro h; simp [symptomLines, beq_iff_eq, h]

/-- Witness for C3: a text containing "pain" takes the pain branch. -/
theorem C3_witness :
    compose_lines "x" "pain in leg" ⟨["pain"], "mild", ""⟩ = painLines :=
  (C3_reply_priority_chain "x" "pain in leg" ⟨["pain"], "mild", ""⟩).1 (by decide)

/-! ## Claim C2 -/

/-- C2: in every branch of the composer the reply string is the branch
lines joined with newline followed by the disclaimer as final line, and
likewise for the file-upload explanation; in both pipelines the outbound
translation is applied to that already-disclaimed string. -/
theorem C2_disclaimer_last_line_before_translation (u e filename lang : String)
    (dO : String → Option String) (tO : String → String → Option String)
    (body : Option ChatBody) :
    (∃ s, reply_text_of u e = s ++ "\n" ++ DISCLAIMER) ∧
    (∃ s, upload_explanation filename = s ++ "\n" ++ DISCLAIMER) ∧
    (chatResultOf dO tO body).reply =
      (if langCodeOf body ≠ "en"
        then translate_text tO
          (reply_text_of (userMsgOf body) (user_msg_en_of dO tO (userMsgOf body)))
          (langCodeOf body)
        else reply_text_of (userMsgOf body) (user_msg_en_of dO tO (userMsgOf body))) ∧
    (uploadOkResultOf tO filename lang).reply =
      (if lang ≠ "en"
        then translate_text tO (upload_explanation filename) lang
        else upload_explanation filename) :=
  ⟨reply_text_of_ends_with_disclaimer u e, ⟨uploadBody filename, rfl⟩, rfl, rfl⟩

/-! ## Claim C4 -/

/-- C4 counterexample: with a concrete inbound message whose second store
append fails, send_message propagates the storage error instead of
returning the computed reply, because no insert_one call in the handler is
wrapped in try/except. -/
theorem C4_counterexample :
    send_message (fun _ => some "en") (fun t _ => some t) true false
      (some ⟨some "hello", some "en"⟩) = .error .storageFailure := rfl

/-- C4 amended: a failing append to the conversation store makes the
handler raise, so the request fails and no reply is returned; only when
both appends succeed is the computed reply returned. -/
theorem C4_storage_failure_propagates (dO : String → Option String)
    (tO : String → String → Option String) (s2 : Bool) (body : Option ChatBody) :
    send_message dO tO false s2 body = .error .storageFailure ∧
    send_message dO tO true false body = .error .storageFailure ∧
    send_message dO tO true true body = .ok (chatResultOf dO tO body) :=
  ⟨rfl, rfl, rfl⟩

/-! ## Claim C5 -/

/-- Translate calls reported by a completed /send_message request. -/
def translateCallsOf (res : Except StorageError ChatResult) : List (String × String) :=
  match res with
  | .ok r => r.translateCalls
  | .error _ => []

/-- C5 counterexample: when language detection returns "hi", the pipeline
does call the translation collaborator with target "en" on the inbound
message (src/app.py line 88), so a translate call with target "en" does
occur in the message pipeline. -/
theorem C5_counterexample :
    (translateCallsOf (send_message (fun _ => some "hi") (fun t _ => some t) true true
      (some ⟨some "बुखार है", some "hi"⟩))).head? = some ("बुखार है", "en") := rfl

/-- C5 amended: only the guards decide the calls: the inbound translation
to English is invoked exactly when the detected language differs from
"en", and the outbound translation exactly when lang_code differs from
"en"; in particular when detection yields "en" and lang_code is "en" the
translation collaborator is not invoked at all and the text passes through
as the identity. -/
theorem C5_translate_bypass (dO : String → Option String)
    (tO : String → String → Option String) (body : Option ChatBody)
    (hd : detect_language dO (userMsgOf body) = "en")
    (hl : langCodeOf body = "en") :
    (chatResultOf dO tO body).translateCalls = [] ∧
    (chatResultOf dO tO body).reply = reply_text_of (userMsgOf body) (userMsgOf body) := by
  constructor
  · simp [chatResultOf, hd, hl]
  · simp [chatResultOf, user_msg_en_of, hd, hl]

/-- Witness for C5: concrete request with English detection and English
lang_code makes no translate call. -/
theorem C5_witness :
    (chatResultOf (fun _ => some "en") (fun t _ => some t)
      (some ⟨some "hello", some "en"⟩)).translateCalls = [] :=
  (C5_translate_bypass (fun _ => some "en") (fun t _ => some t)
    (some ⟨some "hello", some "en"⟩) rfl rfl).1

/-! ## Claim C7 -/

/-- Texts of the bot-authored records appended by a completed /send_message
request. -/
def botMessages (res : Except StorageError ChatResult) : List String :=
  match res with
  | .ok r => (r.stored.filter (fun m => m.sender == "bot")).map (fun m => m.message)
  | .error _ => []

/-- C7 counterexample: with lang_code "hi" and a translation collaborator
that rewrites every text to "ठीक", the stored bot message is the
post-translation reply "ठीक", which does not end with the disclaimer
string. -/
theorem C7_counterexample :
    botMessages (send_message (fun _ => some "hi") (fun _ _ => some "ठीक") true true
      (some ⟨some "fever", some "hi"⟩)) = ["ठीक"] ∧
    strEndsWith "ठीक" DISCLAIMER = false := by
  constructor
  · rfl
  · decide

/-- C7 amended: every stored bot message ends with the disclaimer whenever
the outbound translation is skipped because lang_code is "en"; this holds
in the chat pipeline and in the file-upload pipeline. In general only the
pre-translation reply is guaranteed to end with the disclaimer. -/
theorem C7_bot_messages_end_with_disclaimer (dO : String → Option String)
    (tO : String → String → Option String) (body : Option ChatBody)
    (filename : String) (hl : langCodeOf body = "en") :
    (∀ m ∈ (chatResultOf dO tO body).stored, m.sender = "bot" →
      ∃ s, m.message = s ++ "\n" ++ DISCLAIMER) ∧
    (∀ m ∈ (uploadOkResultOf tO filename "en").stored, m.sender = "bot" →
      ∃ s, m.message = s ++ "\n" ++ DISCLAIMER) := by
  constructor
  · intro m hm hbot
    simp only [chatResultOf, hl, List.mem_cons, List.not_mem_nil, or_false] at hm
    rcases hm with hm | hm
    · rw [hm] at hbot; simp at hbot
    · rw [hm]
      simp only [ne_eq, not_true_eq_false, if_neg, ite_false]
      exact reply_text_of_ends_with_disclaimer _ _
  · intro m hm hbot
    simp only [uploadOkResultOf, List.mem_cons, List.not_mem_nil, or_false] at hm
    rcases hm with hm | hm
    · rw [hm] at hbot; simp at hbot
    · rw [hm]
      simp only [ne_eq, not_true_eq_false, if_neg, ite_false]
      exact ⟨uploadBody filename, rfl⟩

/-- Witness for C7: a concrete English-language request stores a bot
message that ends with the disclaimer. -/
theorem C7_witness :
    ∃ s, "For fever: Drink fluids, rest, monitor temperature.\n⚠ Please consult a doctor before following this advice." =
      s ++ "\n" ++ DISCLAIMER :=
  (C7_bot_messages_end_with_disclaimer (fun _ => some "en") (fun t _ => some t)
    (some ⟨some "fever", some "en"⟩) "doc.pdf" rfl).1
    ⟨"bot", "en", "For fever: Drink fluids, rest, monitor temperature.\n⚠ Please consult a doctor before following this advice."⟩
    (by decide) rfl

/-! ## Claim C9 -/

/-- C9: a /upload_file request with no file attached yields status 400 and
a reply starting "No file received."; among completed requests this is the
only one with a non-success status, and with a file attached the status is
200 with a reply string. -/
theorem C9_upload_missing_file (tO : String → String → Option String)
    (s1 s2 : Bool) (file : Option String) (formLang : Option String)
    (u : UploadResult) (h : upload_file tO s1 s2 file formLang = .ok u) :
    (file = none → u.status = 400 ∧ strStartsWith u.reply "No file received." = true) ∧
    (u.status ≠ 200 → file = none) ∧
    (∀ fn, file = some fn → u.status = 200) := by
  cases file with
  | none =>
    simp only [upload_file] at h
    injection h with h
    subst h
    exact ⟨fun _ => ⟨rfl, by decide⟩, fun _ => rfl, fun fn hfn => by cases hfn⟩
  | some fn =>
    cases s1 with
    | false => simp [upload_file] at h
    | true =>
      cases s2 with
      | false => simp [upload_file] at h
      | true =>
        simp only [upload_file, if_true] at h
        injection h with h
        subst h
        refine ⟨?_, ?_, ?_⟩
        · intro hc; cases hc
        · intro hne; exact absurd rfl hne
        · intro g hg; rfl

/-- Witness for C9: a concrete no-file request returns status 400 and the
"No file received." reply. -/
theorem C9_witness :
    noFileResult.status = 400 ∧
    strStartsWith noFileResult.reply "No file received." = true :=
  (C9_upload_missing_file (fun t _ => some t) true true none none noFileResult rfl).1 rfl

/-! ## Claim C10 -/

/-- C10: a chat request with an absent body, or a body missing the message
or lang_code field, is not rejected: the message defaults to the empty
string, the language code defaults to "en", and the pipeline completes
with a reply whenever the store appends succeed. -/
theorem C10_missing_fields_default (dO : String → Option String)
    (tO : String → String → Option String) :
    userMsgOf none = "" ∧ langCodeOf none = "en" ∧
    (∀ lc, userMsgOf (some ⟨none, lc⟩) = "") ∧
    (∀ m, langCodeOf (some ⟨m, none⟩) = "en") ∧
    send_message dO tO true true none = .ok (chatResultOf dO tO none) ∧
    send_message dO tO true true (some ⟨none, none⟩) =
      .ok (chatResultOf dO tO (some ⟨none, none⟩)) :=
  ⟨rfl, rfl, fun _ => rfl, fun _ => rfl, rfl, rfl⟩
